import Mathlib

/-!
Verification development for the grid-property management engine of the
opm-parser repository, checked against the behaviour pinned by
`src/opm/parser/eclipse/EclipseState/tests/Eclipse3DPropertiesTests.cpp`,
together with a shallow embedding of the lazy sequence utility
`src/opm/parser/eclipse/Utility/Functional.hpp` (`fun::map`).

The engine implementation file (Eclipse3DProperties.cpp) is not present
under src/; only its unit tests are.  Engine definitions below are
therefore modelled from the specification, with the in-repository tests
taken as the authority wherever they pin concrete behaviour.
-/

namespace OpmProps

/-- Errors surfaced by the engine (spec section 7). -/
inductive Err where
  | UnsupportedKeyword
  | TypeMismatch
  | InvalidBox
deriving DecidableEq, Repr

/-- Physical dimension classes of double-kind properties.  Only the
permeability class is exercised by the claims; the remaining classes are
collapsed into `dimless`/`otherDim` tags. -/
inductive Dim where
  | dimless
  | permeability
  | otherDim
deriving DecidableEq, Repr

/-- Modelled from the spec: keyword names are matched case-insensitively,
normalised to a canonical (upper) case at every boundary. -/
def normKw (s : String) : String := ⟨s.data.map Char.toUpper⟩

/-- Modelled from the spec: the integer-kind keyword table of the registry
(Eclipse3DProperties.cpp is missing from src/).  The name set is the one the
test `SupportsProperty` enumerates; the per-keyword default cell values are
unconstrained by the spec and the tests, and are set to 0 here. -/
def intKeywords : List (String × Int) :=
  [("ACTNUM", 0), ("SATNUM", 0), ("IMBNUM", 0), ("PVTNUM", 0), ("EQLNUM", 0),
   ("ENDNUM", 0), ("FLUXNUM", 0), ("MULTNUM", 0), ("FIPNUM", 0),
   ("MISCNUM", 0), ("OPERNUM", 0)]

/-- Modelled from the spec: the double-kind keyword table of the registry,
name set from the test `SupportsProperty`; defaults unconstrained by the
spec and set to 0; dimension classes beyond permeability are inert tags. -/
def dblKeywords : List (String × ℚ × Dim) :=
  [("TEMPI", (0, .otherDim)), ("MULTPV", (0, .dimless)),
   ("PERMX", (0, .permeability)), ("PERMY", (0, .permeability)),
   ("PERMZ", (0, .permeability)), ("SWATINIT", (0, .dimless)),
   ("THCONR", (0, .otherDim)), ("NTG", (0, .dimless))]

/-- Registry lookup for an integer-kind keyword by canonical name:
default value, if registered. -/
def lookupIntCanon (cname : String) : Option Int :=
  (intKeywords.find? (fun p => p.1 == cname)).map (·.2)

/-- Registry lookup for a double-kind keyword by canonical name: default
value and dimension. -/
def lookupDblCanon (cname : String) : Option (ℚ × Dim) :=
  (dblKeywords.find? (fun p => p.1 == cname)).map (·.2)

/-- Registry lookup for an integer-kind keyword, case-insensitive. -/
def lookupIntKw (name : String) : Option Int := lookupIntCanon (normKw name)

/-- Registry lookup for a double-kind keyword, case-insensitive. -/
def lookupDblKw (name : String) : Option (ℚ × Dim) := lookupDblCanon (normKw name)

/-- One materialized integer-kind property: canonical name plus the dense
per-cell value array. -/
structure IProp where
  name : String
  values : List Int
deriving DecidableEq, Repr

/-- One materialized double-kind property. -/
structure DProp where
  name : String
  values : List ℚ
deriving DecidableEq, Repr

/-- Modelled from the spec: the engine state — grid dimensions, the unit
conversion collaborator (a factor per dimension class), the run's default
region keyword for region-edit records that omit one, the facade's default
region constant, the active BOX window (0-based inclusive bounds), and the
insertion-ordered collections of materialized properties. -/
structure St where
  nx : Nat
  ny : Nat
  nz : Nat
  uf : Dim → ℚ
  recordDefaultRegion : String
  defaultRegionKw : String
  window : Option (Nat × Nat × Nat × Nat × Nat × Nat)
  iprops : List IProp
  dprops : List DProp

/-- Modelled from the spec: initial state.  The facade constant is FLUXNUM;
the record-level default region is FLUXNUM unless the deck's GRIDOPTS
record declares NRMULT > 0, in which case it is MULTNUM — the resolution
pinned by the tests `DefaultRegionFluxnum`, `IntIterator` and
`AddregIntSetCorrectly` together. -/
def initSt (nx ny nz : Nat) (uf : Dim → ℚ) (nrmult : Nat) : St :=
  { nx := nx, ny := ny, nz := nz, uf := uf,
    recordDefaultRegion := if 0 < nrmult then "MULTNUM" else "FLUXNUM",
    defaultRegionKw := "FLUXNUM",
    window := none, iprops := [], dprops := [] }

/-- Total cell count of the grid. -/
def St.cellCount (st : St) : Nat := st.nx * st.ny * st.nz

/-- Flat index of cell (i, j, k): i fastest-varying, then j, then k. -/
def flatIdx (st : St) (i j k : Nat) : Nat := i + st.nx * (j + st.ny * k)

/-- Unit conversion (spec section 4.5): dimensionless values pass through
unchanged, dimensioned values are scaled by the collaborator's factor. -/
def convertU (uf : Dim → ℚ) (d : Dim) (v : ℚ) : ℚ :=
  match d with
  | .dimless => v
  | d => uf d * v

/-- Non-creating lookup of a materialized integer property (canonical name). -/
def findICanon (st : St) (cname : String) : Option IProp :=
  st.iprops.find? (fun p => p.name == cname)

/-- Non-creating lookup of a materialized double property (canonical name). -/
def findDCanon (st : St) (cname : String) : Option DProp :=
  st.dprops.find? (fun p => p.name == cname)

/-- Materialize-or-fetch an integer property (spec section 4.2): an existing
instance is returned as-is; otherwise the registry supplies the default
fill, and the new property is appended, preserving insertion order. -/
def getOrCreateI (st : St) (cname : String) : Except Err (St × IProp) :=
  match findICanon st cname with
  | some p => .ok (st, p)
  | none =>
    match lookupIntCanon cname with
    | some d =>
      let p : IProp := ⟨cname, List.replicate st.cellCount d⟩
      .ok ({ st with iprops := st.iprops ++ [p] }, p)
    | none => .error .UnsupportedKeyword

/-- Materialize-or-fetch a double property; the registry default fill is
unit-converted like any ingested value. -/
def getOrCreateD (st : St) (cname : String) : Except Err (St × DProp) :=
  match findDCanon st cname with
  | some p => .ok (st, p)
  | none =>
    match lookupDblCanon cname with
    | some dd =>
      let p : DProp := ⟨cname, List.replicate st.cellCount (convertU st.uf dd.2 dd.1)⟩
      .ok ({ st with dprops := st.dprops ++ [p] }, p)
    | none => .error .UnsupportedKeyword

/-- Replace the value array of the named integer property in place
(collection order untouched). -/
def updateI (st : St) (cname : String) (vals : List Int) : St :=
  { st with iprops := st.iprops.map (fun p => if p.name = cname then ⟨p.name, vals⟩ else p) }

/-- Replace the value array of the named double property in place. -/
def updateD (st : St) (cname : String) (vals : List ℚ) : St :=
  { st with dprops := st.dprops.map (fun p => if p.name = cname then ⟨p.name, vals⟩ else p) }

/-- The flat indices covered by the active clipping window, enumerated in
the invariant i-fastest order; the whole grid when no BOX is active. -/
def windowCells (st : St) : List Nat :=
  match st.window with
  | none => List.range st.cellCount
  | some (i0, i1, j0, j1, k0, k1) =>
    (List.range' k0 (k1 + 1 - k0)).flatMap (fun k =>
      (List.range' j0 (j1 + 1 - j0)).flatMap (fun j =>
        (List.range' i0 (i1 + 1 - i0)).map (fun i => flatIdx st i j k)))

/-- The value the write list assigns to a flat index: the entry of `vals`
paired with the first occurrence of `idx` in `cells`, if any.  The window
enumerations feeding this never repeat a cell. -/
def writeLookup {α : Type} (cells : List Nat) (vals : List α) (idx : Nat) : Option α :=
  match cells, vals with
  | c :: cs, v :: vs => if c = idx then some v else writeLookup cs vs idx
  | _, _ => none

/-- Elementwise pass of the cell overwrite, tracking the flat index. -/
def writeCellsGo {α : Type} (cells : List Nat) (vals : List α) (idx : Nat) :
    List α → List α
  | [] => []
  | a :: rest =>
    (match writeLookup cells vals idx with | some v => v | none => a) ::
      writeCellsGo cells vals (idx + 1) rest

/-- Overwrite the listed cells, in order, with the supplied values. -/
def writeCells {α : Type} (values : List α) (cells : List Nat) (vals : List α) : List α :=
  writeCellsGo cells vals 0 values

/-- Assignment of an integer keyword (spec section 4.2/4.3): materialize
with default fill, then overwrite the cells of the active window. -/
def assignI (st : St) (name : String) (vals : List Int) : Except Err St := do
  let sp ← getOrCreateI st (normKw name)
  .ok (updateI sp.1 sp.2.name (writeCells sp.2.values (windowCells sp.1) vals))

/-- Assignment of a double keyword: raw values pass through unit conversion
at ingestion time. -/
def assignD (st : St) (name : String) (vals : List ℚ) : Except Err St := do
  match lookupDblKw name with
  | none => .error .UnsupportedKeyword
  | some dd =>
    let sp ← getOrCreateD st (normKw name)
    let conv := vals.map (convertU st.uf dd.2)
    .ok (updateD sp.1 sp.2.name (writeCells sp.2.values (windowCells sp.1) conv))

/-- BOX record (spec section 4.3): validate the 1-based inclusive ranges
against the grid bounds and install the window. -/
def applyBox (st : St) (i1 i2 j1 j2 k1 k2 : Nat) : Except Err St :=
  if 1 ≤ i1 ∧ i1 ≤ i2 ∧ i2 ≤ st.nx ∧ 1 ≤ j1 ∧ j1 ≤ j2 ∧ j2 ≤ st.ny
     ∧ 1 ≤ k1 ∧ k1 ≤ k2 ∧ k2 ≤ st.nz then
    .ok { st with window := some (i1 - 1, i2 - 1, j1 - 1, j2 - 1, k1 - 1, k2 - 1) }
  else .error .InvalidBox

/-- ENDBOX record: reset to the whole grid, unconditionally. -/
def applyEndbox (st : St) : St := { st with window := none }

/-- Driver region keyword selection for a region-edit record.  The fourth
record item names a region keyword family: M selects MULTNUM, F selects
FLUXNUM, O selects OPERNUM (pinned for M by `AddregIntSetCorrectly`, where
tag M combined with the MULTNUM classification yields the asserted 12/21
split); an omitted item resolves to the run's default region keyword. -/
def driverName (st : St) (tag : Option String) : String :=
  match tag with
  | none => st.recordDefaultRegion
  | some t =>
    if normKw t = "M" then "MULTNUM"
    else if normKw t = "F" then "FLUXNUM"
    else if normKw t = "O" then "OPERNUM"
    else st.recordDefaultRegion

/-- Exact integer rendering of a rational region-edit value, used when the
target property is integer-kind (the decks only ever supply integers here). -/
def qToInt (q : ℚ) : Int := q.num / (q.den : Int)

/-- Core of a region edit: every cell whose driver value equals the
requested region id is shifted by the value; all other cells are
untouched.  Pinned by `AddregIntSetCorrectly`: ADDREG-style edits add,
for every record (for a double target the value has already been
unit-converted). -/
def addregCore {α : Type} [Add α] (driver : List Int) (target : List α) (rid : Int) (v : α) :
    List α :=
  List.zipWith (fun dv tv => if dv = rid then tv + v else tv) driver target

/-- Modelled from the spec: the literal operator reading of the spec's
region-edit contract — an operatorTag of M selects Multiply, so each
matching cell is multiplied by the value.  Kept only for comparison
against the test-pinned additive behaviour. -/
def addregMulSpec (driver target : List Int) (rid v : Int) : List Int :=
  List.zipWith (fun dv tv => if dv = rid then tv * v else tv) driver target

/-- Region-edit record (spec section 4.4): materialize the driver (which
must be integer-kind) and the target, then apply the classification-driven
additive edit; the clipping window is not consulted. -/
def applyAddreg (st : St) (name : String) (value : ℚ) (rid : Int) (tag : Option String) :
    Except Err St := do
  let dn := driverName st tag
  if (lookupIntCanon dn).isNone ∧ (lookupDblCanon dn).isSome then
    .error .TypeMismatch
  else
    let sd ← getOrCreateI st dn
    match lookupIntKw name, lookupDblKw name with
    | some _, _ =>
      let sp ← getOrCreateI sd.1 (normKw name)
      .ok (updateI sp.1 sp.2.name (addregCore sd.2.values sp.2.values rid (qToInt value)))
    | none, some dd =>
      let sp ← getOrCreateD sd.1 (normKw name)
      .ok (updateD sp.1 sp.2.name
            (addregCore sd.2.values sp.2.values rid (convertU sp.1.uf dd.2 value)))
    | none, none => .error .UnsupportedKeyword

/-- One keyword record of the (already tokenized) input stream; deck
tokenization is out of scope per the spec. -/
inductive Record where
  | assignIRec (kw : String) (vals : List Int)
  | assignDRec (kw : String) (vals : List ℚ)
  | boxRec (i1 i2 j1 j2 k1 k2 : Nat)
  | endboxRec
  | addregRec (kw : String) (value : ℚ) (rid : Int) (tag : Option String)

/-- Dispatch of one record (spec section 2). -/
def step (st : St) : Record → Except Err St
  | .assignIRec kw vals => assignI st kw vals
  | .assignDRec kw vals => assignD st kw vals
  | .boxRec i1 i2 j1 j2 k1 k2 => applyBox st i1 i2 j1 j2 k1 k2
  | .endboxRec => .ok (applyEndbox st)
  | .addregRec kw v rid tag => applyAddreg st kw v rid tag

/-- Strictly sequential processing of the record stream; any error halts. -/
def processRecs (st : St) : List Record → Except Err St
  | [] => .ok st
  | r :: rs => do processRecs (← step st r) rs

/-- Canonical-name core of the supports query. -/
def supportsCanon (cname : String) : Bool :=
  (lookupIntCanon cname).isSome || (lookupDblCanon cname).isSome

/-- Modelled from the spec: the facade's supports query — case-insensitive
registry membership of either kind, never failing. -/
def supportsGridProperty (name : String) : Bool :=
  supportsCanon (normKw name)

/-- Canonical-name core of the has-int query. -/
def hasIntCanon (st : St) (cname : String) : Except Err Bool :=
  if supportsCanon cname then
    .ok (findICanon st cname).isSome
  else .error .UnsupportedKeyword

/-- Facade has-int query (spec section 4.6): UnsupportedKeyword for names
outside the registry, otherwise whether the property is materialized. -/
def hasDeckIntGridProperty (st : St) (name : String) : Except Err Bool :=
  hasIntCanon st (normKw name)

/-- Canonical-name core of the has-double query. -/
def hasDblCanon (st : St) (cname : String) : Except Err Bool :=
  if supportsCanon cname then
    .ok (findDCanon st cname).isSome
  else .error .UnsupportedKeyword

/-- Facade has-double query. -/
def hasDeckDoubleGridProperty (st : St) (name : String) : Except Err Bool :=
  hasDblCanon st (normKw name)

/-- Canonical-name core of the typed int get-accessor: UnsupportedKeyword
for unknown names, TypeMismatch for double-kind names, otherwise
materialize-with-defaults. -/
def getIntCanon (st : St) (cname : String) : Except Err (St × IProp) :=
  if (lookupIntCanon cname).isSome then getOrCreateI st cname
  else if (lookupDblCanon cname).isSome then .error .TypeMismatch
  else .error .UnsupportedKeyword

/-- Facade typed int get-accessor. -/
def getIntGridProperty (st : St) (name : String) : Except Err (St × IProp) :=
  getIntCanon st (normKw name)

/-- Canonical-name core of the typed double get-accessor. -/
def getDblCanon (st : St) (cname : String) : Except Err (St × DProp) :=
  if (lookupDblCanon cname).isSome then getOrCreateD st cname
  else if (lookupIntCanon cname).isSome then .error .TypeMismatch
  else .error .UnsupportedKeyword

/-- Facade typed double get-accessor. -/
def getDoubleGridProperty (st : St) (name : String) : Except Err (St × DProp) :=
  getDblCanon st (normKw name)

/-- Ascending, deduplicated list of the values occurring in an integer
array. -/
def sortDedup (l : List Int) : List Int := l.toFinset.sort (· ≤ ·)

/-- Canonical-name core of the regions query (spec section 4.6):
UnsupportedKeyword for unknown names, TypeMismatch for non-integer-kind
names, empty for supported-but-never-materialized keywords, and otherwise
the ascending sorted distinct cell values; non-creating. -/
def getRegionsCanon (st : St) (cname : String) : Except Err (List Int) :=
  if (lookupIntCanon cname).isSome then
    match findICanon st cname with
    | none => .ok []
    | some p => .ok (sortDedup p.values)
  else if (lookupDblCanon cname).isSome then .error .TypeMismatch
  else .error .UnsupportedKeyword

/-- Facade regions query. -/
def getRegions (st : St) (name : String) : Except Err (List Int) :=
  getRegionsCanon st (normKw name)

/-- Facade default-region getter; the spec specifies a process-wide
constant, installed at initialization and never written by any record
handler. -/
def getDefaultRegionKeyword (st : St) : String := st.defaultRegionKw

/-- Names of the materialized integer properties, in insertion order. -/
def intPropNames (st : St) : List String := st.iprops.map (·.name)

/-- Names of the materialized double properties, in insertion order. -/
def dblPropNames (st : St) : List String := st.dprops.map (·.name)

/-- State extractor for a completed run (the scenario runs below all
succeed; the fallback is never reached on them). -/
def stOfRun (r : Except Err St) : St :=
  match r with
  | .ok st => st
  | .error _ => initSt 0 0 0 (fun _ => 1) 0

/-- Cell read of an integer property from a completed run, by (i, j, k). -/
def intCellOfRun (r : Except Err St) (name : String) (i j k : Nat) : Option Int :=
  match r with
  | .error _ => none
  | .ok st => (findICanon st (normKw name)).bind (fun p => p.values.get? (flatIdx st i j k))

/-- Cell read of a double property from a completed run, by (i, j, k). -/
def dblCellOfRun (r : Except Err St) (name : String) (i j k : Nat) : Option ℚ :=
  match r with
  | .error _ => none
  | .ok st => (findDCanon st (normKw name)).bind (fun p => p.values.get? (flatIdx st i j k))

/-- Full value array of a double property from a completed run. -/
def dblValuesOfRun (r : Except Err St) (name : String) : Option (List ℚ) :=
  match r with
  | .error _ => none
  | .ok st => (findDCanon st (normKw name)).map (·.values)

/-- Trivial unit collaborator for runs that ingest no dimensioned value. -/
def ufOne : Dim → ℚ := fun _ => 1

/-- Unit collaborator exposing the permeability conversion factor. -/
def ufPerm (f : ℚ) : Dim → ℚ := fun d => match d with | .permeability => f | _ => 1

/-- The MULTNUM classification of the 5×5×1 scenario decks, translated from
the test deck text (five rows of `1 1 2 2 2`): columns 0–1 are region 1,
columns 2–4 region 2. -/
def multnumVals : List Int :=
  [1, 1, 2, 2, 2,
   1, 1, 2, 2, 2,
   1, 1, 2, 2, 2,
   1, 1, 2, 2, 2,
   1, 1, 2, 2, 2]

/-- Record stream of `createValidIntDeck` (grid/unit records aside):
MULTNUM, SATNUM `25*1`, then `ADDREG satnum 11 1 M` and `ADDREG SATNUM
20 2`. -/
def intScenarioRecs : List Record :=
  [.assignIRec "MULTNUM" multnumVals,
   .assignIRec "satnum" (List.replicate 25 1),
   .addregRec "satnum" 11 1 (some "M"),
   .addregRec "SATNUM" 20 2 none]

/-- The `createValidIntDeck` run: 5×5×1 grid, GRIDOPTS with NRMULT = 2. -/
def runIntScenario : Except Err St :=
  processRecs (initSt 5 5 1 ufOne 2) intScenarioRecs

/-- The per-cell SATNUM expectation of the test `AddregIntSetCorrectly`,
translated from its assertion loop. -/
def expectedSatnum (i : Nat) : Int := if i < 2 then 12 else 21

/-- Record stream of `createValidPERMXDeck`: MULTNUM, PERMZ assigned 1.0
inside BOX columns 1–2 and 2.0 inside BOX columns 3–5, PERMX `25*1`, then
`ADDREG 'PermX   ' 1 1` and `ADDREG PErmX 3 2`. -/
def permxScenarioRecs : List Record :=
  [.assignIRec "MULTNUM" multnumVals,
   .boxRec 1 2 1 5 1 1,
   .assignDRec "PERMZ" (List.replicate 10 1),
   .endboxRec,
   .boxRec 3 5 1 5 1 1,
   .assignDRec "PERMZ" (List.replicate 15 2),
   .endboxRec,
   .assignDRec "PERMX" (List.replicate 25 1),
   .addregRec "PermX" 1 1 none,
   .addregRec "PErmX" 3 2 none]

/-- The `createValidPERMXDeck` run, parameterized by the permeability unit
conversion factor. -/
def runPermx (f : ℚ) : Except Err St :=
  processRecs (initSt 5 5 1 (ufPerm f) 2) permxScenarioRecs

/-- Record stream of the `getRegions` test deck: 2×2×1 grid, FIPNUM
`1 1 2 3`. -/
def regionsScenarioRecs : List Record :=
  [.assignIRec "FIPNUM" [1, 1, 2, 3]]

/-- The `getRegions` test run (no GRIDOPTS record in that deck). -/
def runRegionsScenario : Except Err St :=
  processRecs (initSt 2 2 1 ufOne 0) regionsScenarioRecs

/-- Modelled from the spec: the claim's reading of the omitted-driver
default — always the process-wide constant FLUXNUM — applied to the
createValidPERMXDeck record stream, kept only for comparison against the
test-pinned run. -/
def runPermxFluxnumDefault (f : ℚ) : Except Err St :=
  processRecs
    { initSt 5 5 1 (ufPerm f) 2 with recordDefaultRegion := "FLUXNUM" }
    permxScenarioRecs

/-- A 5×5×1 double value grid whose columns 0–1 hold `a` and columns 2–4
hold `b` (i-fastest order, row by row). -/
def dgrid (a b : ℚ) : List ℚ :=
  [a, a, b, b, b] ++ [a, a, b, b, b] ++ [a, a, b, b, b] ++
  [a, a, b, b, b] ++ [a, a, b, b, b]

/-- Abbreviation for the engine states occurring along the
createValidPERMXDeck run. -/
def mkStP (f : ℚ) (w : Option (Nat × Nat × Nat × Nat × Nat × Nat))
    (ips : List IProp) (dps : List DProp) : St :=
  ⟨5, 5, 1, ufPerm f, "MULTNUM", "FLUXNUM", w, ips, dps⟩

/-- State after the MULTNUM assignment of the createValidPERMXDeck run. -/
def stP1 (f : ℚ) : St := mkStP f none [⟨"MULTNUM", multnumVals⟩] []

/-- State after the first BOX record (columns 1–2, 1-based). -/
def stP2 (f : ℚ) : St := mkStP f (some (0, 1, 0, 4, 0, 0)) [⟨"MULTNUM", multnumVals⟩] []

/-- State after PERMZ `10*1` inside the first box: the boxed cells hold the
converted raw 1, the others still the converted default 0. -/
def stP3 (f : ℚ) : St :=
  mkStP f (some (0, 1, 0, 4, 0, 0)) [⟨"MULTNUM", multnumVals⟩]
    [⟨"PERMZ", dgrid (f * 1) (f * 0)⟩]

/-- State after the first ENDBOX. -/
def stP4 (f : ℚ) : St :=
  mkStP f none [⟨"MULTNUM", multnumVals⟩] [⟨"PERMZ", dgrid (f * 1) (f * 0)⟩]

/-- State after the second BOX record (columns 3–5, 1-based). -/
def stP5 (f : ℚ) : St :=
  mkStP f (some (2, 4, 0, 4, 0, 0)) [⟨"MULTNUM", multnumVals⟩]
    [⟨"PERMZ", dgrid (f * 1) (f * 0)⟩]

/-- State after PERMZ `15*2` inside the second box. -/
def stP6 (f : ℚ) : St :=
  mkStP f (some (2, 4, 0, 4, 0, 0)) [⟨"MULTNUM", multnumVals⟩]
    [⟨"PERMZ", dgrid (f * 1) (f * 2)⟩]

/-- State after the second ENDBOX. -/
def stP7 (f : ℚ) : St :=
  mkStP f none [⟨"MULTNUM", multnumVals⟩] [⟨"PERMZ", dgrid (f * 1) (f * 2)⟩]

/-- State after PERMX `25*1` on the whole grid. -/
def stP8 (f : ℚ) : St :=
  mkStP f none [⟨"MULTNUM", multnumVals⟩]
    [⟨"PERMZ", dgrid (f * 1) (f * 2)⟩, ⟨"PERMX", dgrid (f * 1) (f * 1)⟩]

/-- State after `ADDREG PermX 1 1` (driver MULTNUM, region 1 = columns
0–1). -/
def stP9 (f : ℚ) : St :=
  mkStP f none [⟨"MULTNUM", multnumVals⟩]
    [⟨"PERMZ", dgrid (f * 1) (f * 2)⟩, ⟨"PERMX", dgrid (f * 1 + f * 1) (f * 1)⟩]

/-- Final state, after `ADDREG PErmX 3 2` (region 2 = columns 2–4). -/
def stP10 (f : ℚ) : St :=
  mkStP f none [⟨"MULTNUM", multnumVals⟩]
    [⟨"PERMZ", dgrid (f * 1) (f * 2)⟩,
     ⟨"PERMX", dgrid (f * 1 + f * 1) (f * 1 + f * 3)⟩]

end OpmProps

namespace Functional

/-!
Shallow embedding of `Opm::fun::map1` from
`src/opm/parser/eclipse/Utility/Functional.hpp`.  A container iterator over
a finite sequence is modelled by the suffix of elements it still has to
visit: `operator++` drops the head, `operator*` applies the stored
callable to the head, and the past-the-end iterator is the empty suffix.
-/

/-- The `fun::map1` view object: the stored callable together with the
`fst` iterator (the element suffix from `begin` to `end`).  Cheap to copy
and restartable: `begin` can be taken any number of times. -/
structure map1 (α β : Type) where
  f : α → β
  fst : List α

/-- `map1::size`: `std::distance(fst, lst)`, the number of increments from
the begin iterator to the end iterator. -/
def map1.size {α β : Type} (m : map1 α β) : Nat := m.fst.length

/-- The iteration loop underlying `map1::vector()`: starting from `begin`,
repeatedly dereference (`f(*itr)`) and increment until the end iterator is
reached. -/
def collectLoop {α β : Type} (f : α → β) : List α → List β
  | [] => []
  | a :: rest => f a :: collectLoop f rest

/-- `map1::vector()`: the vector constructed from the `begin`/`end`
iterator pair. -/
def map1.vector {α β : Type} (m : map1 α β) : List β := collectLoop m.f m.fst

/-- `fun::map( f, c )`: wrap the callable and the container's iterator
range into a `map1` view. -/
def map {α β : Type} (f : α → β) (c : List α) : map1 α β := ⟨f, c⟩

end Functional


namespace OpmProps

/-- Bind on a successful Except value. -/
theorem except_bind_ok {ε α β : Type} (a : α) (f : α → Except ε β) :
    ((Except.ok a : Except ε α) >>= f) = f a := rfl

/-- Bind on a failed Except value. -/
theorem except_bind_err {ε α β : Type} (e : ε) (f : α → Except ε β) :
    ((Except.error e : Except ε α) >>= f) = Except.error e := rfl

/-- Processing one successful record and then the rest. -/
theorem processRecs_cons_ok {st st' : St} {r : Record} {rs : List Record}
    (h : step st r = .ok st') :
    processRecs st (r :: rs) = processRecs st' rs := by
  simp [processRecs, h, except_bind_ok]

set_option maxHeartbeats 1600000 in
/-- createValidPERMXDeck, record 1: MULTNUM assignment. -/
theorem stepPermx1 (f : ℚ) :
    step (initSt 5 5 1 (ufPerm f) 2) (.assignIRec "MULTNUM" multnumVals) =
      .ok (stP1 f) := rfl

set_option maxHeartbeats 1600000 in
/-- createValidPERMXDeck, record 2: first BOX. -/
theorem stepPermx2 (f : ℚ) :
    step (stP1 f) (.boxRec 1 2 1 5 1 1) = .ok (stP2 f) := rfl

set_option maxHeartbeats 1600000 in
/-- createValidPERMXDeck, record 3: PERMZ `10*1` inside the box. -/
theorem stepPermx3 (f : ℚ) :
    step (stP2 f) (.assignDRec "PERMZ" (List.replicate 10 1)) = .ok (stP3 f) := rfl

set_option maxHeartbeats 1600000 in
/-- createValidPERMXDeck, record 4: ENDBOX. -/
theorem stepPermx4 (f : ℚ) :
    step (stP3 f) .endboxRec = .ok (stP4 f) := rfl

set_option maxHeartbeats 1600000 in
/-- createValidPERMXDeck, record 5: second BOX. -/
theorem stepPermx5 (f : ℚ) :
    step (stP4 f) (.boxRec 3 5 1 5 1 1) = .ok (stP5 f) := rfl

set_option maxHeartbeats 1600000 in
/-- createValidPERMXDeck, record 6: PERMZ `15*2` inside the box. -/
theorem stepPermx6 (f : ℚ) :
    step (stP5 f) (.assignDRec "PERMZ" (List.replicate 15 2)) = .ok (stP6 f) := rfl

set_option maxHeartbeats 1600000 in
/-- createValidPERMXDeck, record 7: ENDBOX. -/
theorem stepPermx7 (f : ℚ) :
    step (stP6 f) .endboxRec = .ok (stP7 f) := rfl

set_option maxHeartbeats 1600000 in
/-- createValidPERMXDeck, record 8: PERMX `25*1` on the whole grid. -/
theorem stepPermx8 (f : ℚ) :
    step (stP7 f) (.assignDRec "PERMX" (List.replicate 25 1)) = .ok (stP8 f) := rfl

set_option maxHeartbeats 1600000 in
/-- createValidPERMXDeck, record 9: `ADDREG PermX 1 1`, driver MULTNUM. -/
theorem stepPermx9 (f : ℚ) :
    step (stP8 f) (.addregRec "PermX" 1 1 none) = .ok (stP9 f) := rfl

set_option maxHeartbeats 1600000 in
/-- createValidPERMXDeck, record 10: `ADDREG PErmX 3 2`, driver MULTNUM. -/
theorem stepPermx10 (f : ℚ) :
    step (stP9 f) (.addregRec "PErmX" 3 2 none) = .ok (stP10 f) := rfl

/-- The complete createValidPERMXDeck run, as the chained record steps. -/
theorem runPermx_eq (f : ℚ) : runPermx f = .ok (stP10 f) := by
  show processRecs (initSt 5 5 1 (ufPerm f) 2) permxScenarioRecs = .ok (stP10 f)
  simp only [permxScenarioRecs]
  rw [processRecs_cons_ok (stepPermx1 f), processRecs_cons_ok (stepPermx2 f),
      processRecs_cons_ok (stepPermx3 f), processRecs_cons_ok (stepPermx4 f),
      processRecs_cons_ok (stepPermx5 f), processRecs_cons_ok (stepPermx6 f),
      processRecs_cons_ok (stepPermx7 f), processRecs_cons_ok (stepPermx8 f),
      processRecs_cons_ok (stepPermx9 f), processRecs_cons_ok (stepPermx10 f)]
  rfl

/-- Reading a PERMX cell of the final createValidPERMXDeck state indexes
the final value grid at the flat cell index. -/
theorem dblCell_stP10 (f : ℚ) (i j : Nat) :
    dblCellOfRun (Except.ok (stP10 f)) "PermX" i j 0 =
      (dgrid (f * 1 + f * 1) (f * 1 + f * 3)).get? (i + 5 * (j + 5 * 0)) := rfl

/-- Cell shape of a two-column-band 5×5 value grid. -/
theorem dgrid_get_shape (a b : ℚ) (idx : Nat) (h : idx < 25) :
    (dgrid a b).get? idx = some (if idx % 5 < 2 then a else b) := by
  interval_cases idx <;> rfl

end OpmProps

namespace OpmProps

/-- Materializing an integer property never touches the facade's default
region constant. -/
theorem getOrCreateI_defaultKw {st : St} {c : String} {sp : St × IProp}
    (h : getOrCreateI st c = .ok sp) : sp.1.defaultRegionKw = st.defaultRegionKw := by
  unfold getOrCreateI at h
  split at h
  · cases h; rfl
  · split at h
    · cases h; rfl
    · cases h

/-- Materializing a double property never touches the facade's default
region constant. -/
theorem getOrCreateD_defaultKw {st : St} {c : String} {sp : St × DProp}
    (h : getOrCreateD st c = .ok sp) : sp.1.defaultRegionKw = st.defaultRegionKw := by
  unfold getOrCreateD at h
  split at h
  · cases h; rfl
  · split at h
    · cases h; rfl
    · cases h

/-- No record handler writes the facade's default region constant. -/
theorem step_defaultKw {st : St} {r : Record} {st' : St}
    (h : step st r = .ok st') : st'.defaultRegionKw = st.defaultRegionKw := by
  cases r with
  | assignIRec kw vals =>
    simp only [step, assignI] at h
    cases hg : getOrCreateI st (normKw kw) with
    | error e => rw [hg, except_bind_err] at h; cases h
    | ok sp =>
      rw [hg, except_bind_ok] at h
      cases h
      exact getOrCreateI_defaultKw hg
  | assignDRec kw vals =>
    simp only [step, assignD] at h
    cases hl : lookupDblKw kw with
    | none => simp only [hl] at h; cases h
    | some dd =>
      simp only [hl] at h
      cases hg : getOrCreateD st (normKw kw) with
      | error e => rw [hg, except_bind_err] at h; cases h
      | ok sp =>
        rw [hg, except_bind_ok] at h
        cases h
        exact getOrCreateD_defaultKw hg
  | boxRec i1 i2 j1 j2 k1 k2 =>
    simp only [step, applyBox] at h
    split at h
    · cases h; rfl
    · cases h
  | endboxRec =>
    simp only [step] at h
    cases h; rfl
  | addregRec kw v rid tag =>
    simp only [step, applyAddreg] at h
    split at h
    · cases h
    · cases hg : getOrCreateI st (driverName st tag) with
      | error e => rw [hg, except_bind_err] at h; cases h
      | ok sd =>
        rw [hg, except_bind_ok] at h
        have hsd := getOrCreateI_defaultKw hg
        cases hli : lookupIntKw kw with
        | some d =>
          simp only [hli] at h
          cases hg2 : getOrCreateI sd.1 (normKw kw) with
          | error e => rw [hg2, except_bind_err] at h; cases h
          | ok sp =>
            rw [hg2, except_bind_ok] at h
            cases h
            exact (getOrCreateI_defaultKw hg2).trans hsd
        | none =>
          cases hld : lookupDblKw kw with
          | some dd =>
            simp only [hli, hld] at h
            cases hg2 : getOrCreateD sd.1 (normKw kw) with
            | error e => rw [hg2, except_bind_err] at h; cases h
            | ok sp =>
              rw [hg2, except_bind_ok] at h
              cases h
              exact (getOrCreateD_defaultKw hg2).trans hsd
          | none => simp only [hli, hld] at h; cases h

/-- Processing any record stream preserves the facade's default region
constant. -/
theorem processRecs_defaultKw {recs : List Record} {st st' : St}
    (h : processRecs st recs = .ok st') : st'.defaultRegionKw = st.defaultRegionKw := by
  induction recs generalizing st with
  | nil =>
    unfold processRecs at h
    cases h; rfl
  | cons r rs ih =>
    unfold processRecs at h
    cases hs : step st r with
    | error e => rw [hs, except_bind_err] at h; cases h
    | ok stm =>
      rw [hs, except_bind_ok] at h
      exact (ih h).trans (step_defaultKw hs)

end OpmProps

namespace OpmProps

/-- Pointwise description of the region-edit core: under the requested
region id, each matching cell is shifted by the value, every other cell is
left unchanged. -/
theorem addregCore_getD {α : Type} [Add α] (driver : List Int) (target : List α)
    (rid : Int) (v : α) (d0 : α) (idx : Nat)
    (hd : idx < driver.length) (ht : idx < target.length) :
    (addregCore driver target rid v).getD idx d0 =
      if driver.getD idx 0 = rid then target.getD idx d0 + v
      else target.getD idx d0 := by
  induction driver generalizing target idx with
  | nil => simp at hd
  | cons a as ih =>
    cases target with
    | nil => simp at ht
    | cons b bs =>
      cases idx with
      | zero => simp [addregCore]
      | succ n =>
        have hd' : n < as.length := by simpa using hd
        have ht' : n < bs.length := by simpa using ht
        simpa [addregCore] using ih bs n hd' ht'

/-- C1: on the 5×5×1 createValidIntDeck run — MULTNUM classifying columns
0–1 as region 1 and columns 2–4 as region 2, SATNUM assigned `25*1`, then
`ADDREG satnum 11 1 M` and `ADDREG SATNUM 20 2` — every cell with column
index < 2 holds SATNUM 12 and every other cell holds 21, as the test
`AddregIntSetCorrectly` asserts. -/
theorem satnum_region_edit_scenario (i j : Nat) (hi : i < 5) (hj : j < 5) :
    intCellOfRun runIntScenario "SATNUM" i j 0 = some (if i < 2 then 12 else 21) := by
  interval_cases i <;> interval_cases j <;> decide

/-- Witness for C1 at cells (0,0,0) and (4,4,0). -/
theorem satnum_region_edit_scenario_witness :
    ((0 : Nat) < 5 ∧ (4 : Nat) < 5)
  ∧ intCellOfRun runIntScenario "SATNUM" 0 0 0 = some (if 0 < 2 then 12 else 21)
  ∧ intCellOfRun runIntScenario "SATNUM" 4 4 0 = some (if 4 < 2 then 12 else 21) :=
  ⟨⟨by decide, by decide⟩,
   satnum_region_edit_scenario 0 0 (by decide) (by decide),
   satnum_region_edit_scenario 4 4 (by decide) (by decide)⟩

/-- C2 counterexample: under the claim's reading — tag M selects Multiply —
scenario B's record pair leaves cell (0,0,0) at 1·11 = 11 (the M-tagged
record multiplies it, the second record targets region 2 and skips it),
while the program leaves it at 12, the value the test
`AddregIntSetCorrectly` asserts; 11 ≠ 12, so the M tag cannot select a
multiply operator. -/
theorem addreg_multiply_tag_cex :
    (addregCore multnumVals
        (addregMulSpec multnumVals (List.replicate 25 1) 1 11) 2 20).getD 0 0 = 11
  ∧ intCellOfRun runIntScenario "SATNUM" 0 0 0 = some 12
  ∧ expectedSatnum 0 = 12
  ∧ (11 : Int) ≠ 12 :=
  ⟨by decide, by decide, by decide, by decide⟩

/-- C2 (amended): the fourth item of an ADDREG record names the driver
region keyword — `M` selects MULTNUM — and the edit operation is always
additive: every cell whose driver value equals the region id gets
`target[idx] + value`, every other cell is unchanged. -/
theorem addreg_edit_additive (st : St) (driver target : List Int)
    (rid v : Int) (idx : Nat) (hd : idx < driver.length) (ht : idx < target.length) :
    driverName st (some "M") = "MULTNUM"
  ∧ (addregCore driver target rid v).getD idx 0 =
      (if driver.getD idx 0 = rid then target.getD idx 0 + v
       else target.getD idx 0) :=
  ⟨rfl, addregCore_getD driver target rid v 0 idx hd ht⟩

/-- Witness for C2 (amended) on the driver [1, 2], target [5, 5], region 1,
value 11, at index 0. -/
theorem addreg_edit_additive_witness :
    ((0 : Nat) < 2 ∧ (0 : Nat) < 2)
  ∧ driverName (initSt 5 5 1 ufOne 2) (some "M") = "MULTNUM"
  ∧ (addregCore [1, 2] ([5, 5] : List Int) 1 11).getD 0 0 =
      (if ([1, 2] : List Int).getD 0 0 = 1 then ([5, 5] : List Int).getD 0 0 + 11
       else ([5, 5] : List Int).getD 0 0) :=
  ⟨⟨by decide, by decide⟩,
   (addreg_edit_additive (initSt 5 5 1 ufOne 2) [1, 2] [5, 5] 1 11 0
      (by decide) (by decide)).1,
   (addreg_edit_additive (initSt 5 5 1 ufOne 2) [1, 2] [5, 5] 1 11 0
      (by decide) (by decide)).2⟩

/-- C3 counterexample: in the createValidPERMXDeck run both ADDREG records
omit the driver keyword, yet the driver resolved for them is MULTNUM, not
FLUXNUM: the run materializes no FLUXNUM property — its integer-property
list is exactly [MULTNUM], as the test `IntIterator` asserts — whereas
processing the same records with the claim's constant-FLUXNUM default
would materialize FLUXNUM as a second integer property. -/
theorem omitted_driver_fluxnum_cex :
    driverName (stOfRun (runPermx 1)) none = "MULTNUM"
  ∧ intPropNames (stOfRun (runPermx 1)) = ["MULTNUM"]
  ∧ intPropNames (stOfRun (runPermxFluxnumDefault 1)) = ["MULTNUM", "FLUXNUM"]
  ∧ "MULTNUM" ≠ "FLUXNUM" := by
  refine ⟨?_, ?_, by decide, by decide⟩
  · rw [runPermx_eq]; decide
  · rw [runPermx_eq]; decide

/-- C3 (amended): a region-edit record that omits the driver keyword uses
the run's default region keyword, which is MULTNUM whenever the deck's
GRIDOPTS record sets NRMULT > 0 (as in the cited decks) and FLUXNUM
otherwise. -/
theorem omitted_driver_default_resolution (st : St) (nx ny nz nrmult : Nat)
    (uf : Dim → ℚ) :
    driverName st none = st.recordDefaultRegion
  ∧ (initSt nx ny nz uf nrmult).recordDefaultRegion =
      (if 0 < nrmult then "MULTNUM" else "FLUXNUM")
  ∧ (initSt 5 5 1 uf 2).recordDefaultRegion = "MULTNUM" :=
  ⟨rfl, rfl, rfl⟩

/-- C4: on the createValidPERMXDeck run — PERMZ 1.0 on columns 0–1 and 2.0
on columns 2–4 through BOX windows, PERMX `25*1`, then `ADDREG PermX 1 1`
and `ADDREG PErmX 3 2` — the PermX query returns 2·f for every cell with
column index < 2 and 4·f for every other cell, f being the permeability
unit conversion factor, as the test `PermxUnitAppliedCorrectly` asserts. -/
theorem permx_unit_conversion_scenario (f : ℚ) (i j : Nat) (hi : i < 5) (hj : j < 5) :
    dblCellOfRun (runPermx f) "PermX" i j 0 = some ((if i < 2 then 2 else 4) * f) := by
  rw [runPermx_eq, dblCell_stP10, dgrid_get_shape _ _ _ (by omega)]
  have hmod : (i + 5 * (j + 5 * 0)) % 5 = i := by omega
  rw [hmod]
  by_cases h : i < 2
  · simp only [h, if_true]
    exact congrArg some (by ring)
  · simp only [h, if_false]
    exact congrArg some (by ring)

/-- Witness for C4 with unit factor 7 at cells (1,2,0) and (3,2,0). -/
theorem permx_unit_conversion_scenario_witness :
    ((1 : Nat) < 5 ∧ (3 : Nat) < 5 ∧ (2 : Nat) < 5)
  ∧ dblCellOfRun (runPermx 7) "PermX" 1 2 0 = some ((if 1 < 2 then 2 else 4) * 7)
  ∧ dblCellOfRun (runPermx 7) "PermX" 3 2 0 = some ((if 3 < 2 then 2 else 4) * 7) :=
  ⟨⟨by decide, by decide, by decide⟩,
   permx_unit_conversion_scenario 7 1 2 (by decide) (by decide),
   permx_unit_conversion_scenario 7 3 2 (by decide) (by decide)⟩

end OpmProps

namespace OpmProps

/-- C5: the regions query of a materialized integer-kind property returns
the distinct values occurring among its cells, sorted ascending, and the
regions query of a supported integer keyword that was never materialized
returns the empty sequence rather than failing. -/
theorem regions_query_spec (st : St) (name : String) :
    (∀ p : IProp, (lookupIntCanon (normKw name)).isSome = true →
       findICanon st (normKw name) = some p →
       ∃ l, getRegions st name = .ok l ∧ l.Sorted (· < ·)
            ∧ ∀ x : Int, x ∈ l ↔ x ∈ p.values)
  ∧ ((lookupIntCanon (normKw name)).isSome = true →
       findICanon st (normKw name) = none →
       getRegions st name = .ok []) := by
  constructor
  · intro p hs hf
    refine ⟨sortDedup p.values, ?_, ?_, ?_⟩
    · simp [getRegions, getRegionsCanon, hs, hf]
    · simp only [sortDedup]
      exact (Finset.sort_sorted _ _).lt_of_le (Finset.sort_nodup _ _)
    · intro x
      simp [sortDedup, Finset.mem_sort, List.mem_toFinset]
  · intro hs hf
    simp [getRegions, getRegionsCanon, hs, hf]

/-- Witness for C5 on the getRegions test run: FIPNUM holds [1,1,2,3] on
the 2×2×1 grid, EQLNUM is supported but never materialized. -/
theorem regions_query_spec_witness :
    ((lookupIntCanon (normKw "FIPNUM")).isSome = true
      ∧ findICanon (stOfRun runRegionsScenario) (normKw "FIPNUM") =
          some ⟨"FIPNUM", [1, 1, 2, 3]⟩
      ∧ ∃ l, getRegions (stOfRun runRegionsScenario) "FIPNUM" = .ok l
             ∧ l.Sorted (· < ·)
             ∧ ∀ x : Int, x ∈ l ↔ x ∈ (IProp.mk "FIPNUM" [1, 1, 2, 3]).values)
  ∧ ((lookupIntCanon (normKw "EQLNUM")).isSome = true
      ∧ findICanon (stOfRun runRegionsScenario) (normKw "EQLNUM") = none
      ∧ getRegions (stOfRun runRegionsScenario) "EQLNUM" = .ok []) :=
  ⟨⟨by decide, by decide,
    (regions_query_spec (stOfRun runRegionsScenario) "FIPNUM").1
      ⟨"FIPNUM", [1, 1, 2, 3]⟩ (by decide) (by decide)⟩,
   ⟨by decide, by decide,
    (regions_query_spec (stOfRun runRegionsScenario) "EQLNUM").2
      (by decide) (by decide)⟩⟩

/-- C6: a name absent from both registry tables gets supports = false
without failing, while every has/get/regions query on it fails with
UnsupportedKeyword, as the test `UnsupportedKeywordsThrows` asserts. -/
theorem unsupported_keyword_errors (st : St) (name : String)
    (hn : lookupIntCanon (normKw name) = none)
    (hd : lookupDblCanon (normKw name) = none) :
    supportsGridProperty name = false
  ∧ hasDeckIntGridProperty st name = .error .UnsupportedKeyword
  ∧ hasDeckDoubleGridProperty st name = .error .UnsupportedKeyword
  ∧ getIntGridProperty st name = .error .UnsupportedKeyword
  ∧ getDoubleGridProperty st name = .error .UnsupportedKeyword
  ∧ getRegions st name = .error .UnsupportedKeyword := by
  refine ⟨?_, ?_, ?_, ?_, ?_, ?_⟩ <;>
    simp [supportsGridProperty, supportsCanon, hasDeckIntGridProperty, hasIntCanon,
          hasDeckDoubleGridProperty, hasDblCanon, getIntGridProperty, getIntCanon,
          getDoubleGridProperty, getDblCanon, getRegions, getRegionsCanon, hn, hd]

/-- Witness for C6 with the test's unknown name NONO. -/
theorem unsupported_keyword_errors_witness :
    (lookupIntCanon (normKw "NONO") = none ∧ lookupDblCanon (normKw "NONO") = none)
  ∧ (supportsGridProperty "NONO" = false
     ∧ hasDeckIntGridProperty (stOfRun runRegionsScenario) "NONO" = .error .UnsupportedKeyword
     ∧ hasDeckDoubleGridProperty (stOfRun runRegionsScenario) "NONO" = .error .UnsupportedKeyword
     ∧ getIntGridProperty (stOfRun runRegionsScenario) "NONO" = .error .UnsupportedKeyword
     ∧ getDoubleGridProperty (stOfRun runRegionsScenario) "NONO" = .error .UnsupportedKeyword
     ∧ getRegions (stOfRun runRegionsScenario) "NONO" = .error .UnsupportedKeyword) :=
  ⟨⟨by decide, by decide⟩,
   unsupported_keyword_errors (stOfRun runRegionsScenario) "NONO" (by decide) (by decide)⟩

/-- C7: for a registered keyword k and any casing variant k' of it (same
canonical form), supports is true for both, and each has/get/regions query
gives the same outcome on k' as on k — casing never changes a result. -/
theorem case_insensitive_queries (st : St) (k k' : String)
    (hreg : supportsGridProperty k = true)
    (hvar : normKw k' = normKw k) :
    supportsGridProperty k' = true
  ∧ supportsGridProperty k = true
  ∧ hasDeckIntGridProperty st k' = hasDeckIntGridProperty st k
  ∧ hasDeckDoubleGridProperty st k' = hasDeckDoubleGridProperty st k
  ∧ getIntGridProperty st k' = getIntGridProperty st k
  ∧ getDoubleGridProperty st k' = getDoubleGridProperty st k
  ∧ getRegions st k' = getRegions st k := by
  constructor
  · simpa only [supportsGridProperty, hvar] using hreg
  · refine ⟨hreg, ?_, ?_, ?_, ?_, ?_⟩ <;>
      simp only [hasDeckIntGridProperty, hasDeckDoubleGridProperty,
                 getIntGridProperty, getDoubleGridProperty, getRegions, hvar]

/-- Witness for C7 with the test's casing variant SaTNuM of SATNUM. -/
theorem case_insensitive_queries_witness :
    (supportsGridProperty "SATNUM" = true ∧ normKw "SaTNuM" = normKw "SATNUM")
  ∧ (supportsGridProperty "SaTNuM" = true
     ∧ supportsGridProperty "SATNUM" = true
     ∧ hasDeckIntGridProperty (stOfRun runRegionsScenario) "SaTNuM" =
         hasDeckIntGridProperty (stOfRun runRegionsScenario) "SATNUM"
     ∧ hasDeckDoubleGridProperty (stOfRun runRegionsScenario) "SaTNuM" =
         hasDeckDoubleGridProperty (stOfRun runRegionsScenario) "SATNUM"
     ∧ getIntGridProperty (stOfRun runRegionsScenario) "SaTNuM" =
         getIntGridProperty (stOfRun runRegionsScenario) "SATNUM"
     ∧ getDoubleGridProperty (stOfRun runRegionsScenario) "SaTNuM" =
         getDoubleGridProperty (stOfRun runRegionsScenario) "SATNUM"
     ∧ getRegions (stOfRun runRegionsScenario) "SaTNuM" =
         getRegions (stOfRun runRegionsScenario) "SATNUM") :=
  ⟨⟨by decide, by decide⟩,
   case_insensitive_queries (stOfRun runRegionsScenario) "SATNUM" "SaTNuM"
     (by decide) (by decide)⟩

/-- C8: after the createValidPERMXDeck run, in which only PERMZ and PERMX
(double) and MULTNUM (int) were ever referenced, the double-property
sequence is exactly [PERMZ, PERMX] — the two materialized names in
insertion order — and the integer-property sequence is exactly [MULTNUM];
neither is the full supported keyword set, as the tests `DoubleIterator`
and `IntIterator` assert. -/
theorem iterators_materialized_only (f : ℚ) :
    dblPropNames (stOfRun (runPermx f)) = ["PERMZ", "PERMX"]
  ∧ intPropNames (stOfRun (runPermx f)) = ["MULTNUM"] := by
  rw [runPermx_eq]
  exact ⟨rfl, rfl⟩

/-- C9: the facade's default-region getter returns FLUXNUM after
processing any record stream from any initial configuration — no record
handler writes it. -/
theorem default_region_keyword_constant (recs : List Record) (nx ny nz nrmult : Nat)
    (uf : Dim → ℚ) (st' : St)
    (h : processRecs (initSt nx ny nz uf nrmult) recs = .ok st') :
    getDefaultRegionKeyword st' = "FLUXNUM" :=
  (processRecs_defaultKw h).trans rfl

/-- Witness for C9 on the completed createValidIntDeck run. -/
theorem default_region_keyword_constant_witness :
    processRecs (initSt 5 5 1 ufOne 2) intScenarioRecs = .ok (stOfRun runIntScenario)
  ∧ getDefaultRegionKeyword (stOfRun runIntScenario) = "FLUXNUM" :=
  ⟨rfl,
   default_region_keyword_constant intScenarioRecs 5 5 1 2 ufOne
     (stOfRun runIntScenario) rfl⟩

end OpmProps

namespace Functional

/-- The iterator collection loop is the elementwise image. -/
theorem collectLoop_eq_map {α β : Type} (f : α → β) (l : List α) :
    collectLoop f l = l.map f := by
  induction l with
  | nil => rfl
  | cons a rest ih => simp [collectLoop, ih]

/-- C10: `fun::map(f, c)` is a finite sequence whose size equals the
element count of the container and whose elements, in order, are f applied
to each element of c in order, so `vector()` is the elementwise image. -/
theorem fun_map_size_vector {α β : Type} (f : α → β) (c : List α) :
    (Functional.map f c).size = c.length
  ∧ (Functional.map f c).vector = c.map f
  ∧ ∀ i : Nat, ((Functional.map f c).vector).get? i = (c.get? i).map f := by
  refine ⟨rfl, collectLoop_eq_map f c, ?_⟩
  intro i
  have hv : (Functional.map f c).vector = c.map f := collectLoop_eq_map f c
  rw [hv]
  simp [List.get?_eq_getElem?, List.getElem?_map]

end Functional
